import Mathlib

/-!
Verification of the library-recommendation-system frontend API client and
view-state logic.  The definitions below are a shallow embedding of the
TypeScript source: JSON values become an inductive type, the `fetch`
response becomes a record of status / statusText / body text, the ambient
`JSON.parse` of the JavaScript runtime becomes an explicit `parse`
parameter (`none` models a parse exception), and thrown exceptions become
`Except.error`.  JavaScript numbers are embedded as `Int`.
-/

set_option maxHeartbeats 1000000

/-- A JSON / JavaScript value as produced by `response.json()`.  Numbers are
embedded as integers. -/
inductive Json where
  | null
  | bool (b : Bool)
  | num (n : Int)
  | str (s : String)
  | arr (elems : List Json)
  | obj (fields : List (String × Json))
deriving Repr

namespace Json

/-- Structural equality test, needed because `deriving DecidableEq` does not
handle the nested `List` occurrences. -/
def beq : Json → Json → Bool
  | .null, .null => true
  | .bool a, .bool b => a == b
  | .num a, .num b => a == b
  | .str a, .str b => a == b
  | .arr a, .arr b => beqList a b
  | .obj a, .obj b => beqFields a b
  | _, _ => false
where
  beqList : List Json → List Json → Bool
    | [], [] => true
    | x :: xs, y :: ys => beq x y && beqList xs ys
    | _, _ => false
  beqFields : List (String × Json) → List (String × Json) → Bool
    | [], [] => true
    | (k, x) :: xs, (l, y) :: ys => k == l && beq x y && beqFields xs ys
    | _, _ => false

/-- The JavaScript `Array.isArray` test. -/
def isArr : Json → Bool
  | .arr _ => true
  | _ => false

/-- The JavaScript `typeof v === 'string'` test. -/
def isStr : Json → Bool
  | .str _ => true
  | _ => false

/-- The source's helper `isObject`: `typeof value === 'object' && value !== null`.
In JavaScript this is `true` for arrays as well. -/
def isObject : Json → Bool
  | .obj _ => true
  | .arr _ => true
  | _ => false

/-- JavaScript property access `v[key]` on a decoded JSON value: `none` models
`undefined` (non-objects and absent keys have no properties of interest). -/
def get : Json → String → Option Json
  | .obj fields, key => (fields.find? (fun p => p.1 = key)).map (fun p => p.2)
  | _, _ => none

/-- The test `typeof data?.body === 'string'` (equivalently
`isObject(data) && typeof data.body === 'string'`): returns the string held by
a `body` field of an object, if any. -/
def bodyString (data : Json) : Option String :=
  match data.get "body" with
  | some (.str s) => some s
  | _ => none

end Json

/-- The JavaScript `??` (nullish coalescing) operator on property lookups:
`null` and `undefined` fall through to the right operand. -/
def jsOr (a b : Option Json) : Option Json :=
  match a with
  | some .null => b
  | none => b
  | some v => some v

/-- The runtime's `JSON.parse`, a parameter of the embedding; `none` models a
thrown `SyntaxError`. -/
abbrev Parse := String → Option Json

/-- The shared unwrapping idiom
`isObject(data) && typeof data.body === 'string' ? JSON.parse(data.body) : data`;
a parse failure propagates as an exception. -/
def unwrapBody (parse : Parse) (data : Json) : Except String Json :=
  match data.bodyString with
  | some s =>
      match parse s with
      | some p => .ok p
      | none => .error "JSON.parse"
  | none => .ok data

/-- An HTTP response as observed through `fetch`: numeric status, status text
and the raw body text (served to both `response.json()` and
`response.text()`). -/
structure Response where
  status : Nat
  statusText : String
  bodyText : String
deriving DecidableEq, Repr

/-- The test `response.ok`: status in the 2xx range. -/
def Response.isOk (r : Response) : Bool :=
  decide (200 ≤ r.status ∧ r.status < 300)

/-- The error-message shape used throughout the client:
`` `<head>: ${response.status} ${response.statusText}. ${errorText}` ``. -/
def httpErrMsg (head : String) (r : Response) : String :=
  head ++ ": " ++ toString r.status ++ " " ++ r.statusText ++ ". " ++ r.bodyText

/-- The call `response.json()`: decode the body text; failure is a thrown exception. -/
def responseJson (parse : Parse) (r : Response) : Except String Json :=
  match parse r.bodyText with
  | some d => .ok d
  | none => .error "response.json"

/-- Whether `needle` occurs as a contiguous substring of `hay` (the JavaScript
`message.includes(needle)`). -/
def strIncludes (needle hay : String) : Prop :=
  needle.data <:+: hay.data

instance (needle hay : String) : Decidable (strIncludes needle hay) :=
  inferInstanceAs (Decidable (needle.data <:+: hay.data))

/-!
## API client functions (`src/services/api.ts`)

Each client function is split, following the source's control flow, into the
HTTP-status check and the normalization of the decoded JSON value.  Book and
reading-list records are returned as raw `Json` values (the source casts them,
`data as Book`, without validation); reviews and recommendations are validated
field by field and so become Lean structures.
-/

/-- Normalization of `getBooks` (api.ts lines 440-451): a bare array is
returned as-is; an object with a string `body` is unwrapped once and the
result returned if it is an array, else `[]`; anything else gives `[]`. -/
def getBooksNorm (parse : Parse) (data : Json) : Except String (List Json) :=
  match data with
  | .arr l => .ok l
  | _ =>
      match data.bodyString with
      | some s =>
          match parse s with
          | some (.arr l) => .ok l
          | some _ => .ok []
          | none => .error "JSON.parse"
      | none => .ok []

/-- The client function `getBooks` (api.ts lines 430-462): non-2xx throws with status code,
status text and body text; a 2xx response is decoded and normalized. -/
def getBooksClient (parse : Parse) (r : Response) : Except String (List Json) :=
  if r.isOk then
    match responseJson parse r with
    | .ok data => getBooksNorm parse data
    | .error e => .error e
  else .error (httpErrMsg "Failed to fetch books" r)

/-- JavaScript `null` as a return value becomes `Option.none`; any other
decoded value is returned as the book record. -/
def jsNullable : Json → Option Json
  | .null => none
  | j => some j

/-- The client function `getBook` (api.ts lines 463-481): 404 resolves to `null`; any other
non-2xx status throws the fixed message `Failed to fetch book`; a 2xx
response is decoded, a string `body` field is unwrapped once, and the
resulting value is returned. -/
def getBookClient (parse : Parse) (r : Response) : Except String (Option Json) :=
  if r.status = 404 then .ok none
  else if r.isOk then
    match responseJson parse r with
    | .ok data =>
        match unwrapBody parse data with
        | .ok p => .ok (jsNullable p)
        | .error e => .error e
    | .error e => .error e
  else .error "Failed to fetch book"

/-- A recommendation record as constructed by `getRecommendations`
(title, author, reason, confidence). -/
structure Recommendation where
  title : String
  author : String
  reason : String
  confidence : Int
deriving DecidableEq, Repr

/-- The element mapper inside `getRecommendations` (api.ts lines 614-631):
a non-object or any field failing its `typeof` check maps to `null`. -/
def toRecommendation (rec : Json) : Option Recommendation :=
  if rec.isObject = false then none
  else
    match rec.get "title", rec.get "author", rec.get "reason", rec.get "confidence" with
    | some (.str t), some (.str a), some (.str re), some (.num c) =>
        some { title := t, author := a, reason := re, confidence := c }
    | _, _, _, _ => none

/-- Normalization of `getRecommendations` (api.ts lines 605-632): unwrap a
string `body`, then require an object with an array `recommendations` field,
else `[]`; elements failing validation are dropped. -/
def getRecommendationsNorm (parse : Parse) (data : Json) :
    Except String (List Recommendation) :=
  match unwrapBody parse data with
  | .error e => .error e
  | .ok payload =>
      if payload.isObject = false then .ok []
      else
        match payload.get "recommendations" with
        | some (.arr recs) => .ok (recs.filterMap toRecommendation)
        | _ => .ok []

/-- The client function `getRecommendations` (api.ts lines 589-642). -/
def getRecommendationsClient (parse : Parse) (r : Response) :
    Except String (List Recommendation) :=
  if r.isOk then
    match responseJson parse r with
    | .ok data => getRecommendationsNorm parse data
    | .error e => .error e
  else .error (httpErrMsg "Failed to get recommendations" r)

/-- The element mapper inside `getReadingLists` (api.ts lines 669-679):
non-objects map to `null`; otherwise `bookIds` is replaced by its string
elements (or `[]` when not an array) via `{...item, bookIds}`. -/
def toReadingListItem (item : Json) : Option Json :=
  if item.isObject = false then none
  else
    let bookIds : List Json :=
      match item.get "bookIds" with
      | some (.arr l) => l.filter Json.isStr
      | _ => []
    some (jsSpreadSet item "bookIds" (.arr bookIds))
where
  /- The object spread `{...item, bookIds: v}`: existing keys keep their
  position, an overridden key keeps its first position with the new value. -/
  jsSpreadSet (item : Json) (key : String) (v : Json) : Json :=
    match item with
    | .obj fields =>
        if fields.any (fun p => p.1 = key) then
          .obj (fields.map (fun p => if p.1 = key then (key, v) else p))
        else .obj (fields ++ [(key, v)])
    | other =>
        -- only objects and arrays pass the `isObject` guard; spreading an
        -- array yields an object with stringified index keys
        match other with
        | .arr l => .obj ((l.enum.map (fun p => (toString p.1, p.2))) ++ [(key, v)])
        | _ => .obj [(key, v)]

/-- Normalization of `getReadingLists` (api.ts lines 655-680): `itemsRaw` is
the bare array, or the parse of a string `body`, or `[]`; a non-array
`itemsRaw` gives `[]`; elements are mapped and `null`s filtered out. -/
def getReadingListsNorm (parse : Parse) (data : Json) : Except String (List Json) :=
  let itemsRawE : Except String Json :=
    match data with
    | .arr l => .ok (.arr l)
    | _ =>
        match data.bodyString with
        | some s =>
            match parse s with
            | some p => .ok p
            | none => .error "JSON.parse"
        | none => .ok (.arr [])
  match itemsRawE with
  | .error e => .error e
  | .ok (.arr items) => .ok (items.filterMap toReadingListItem)
  | .ok _ => .ok []

/-- The client function `getReadingLists` (api.ts lines 643-691). -/
def getReadingListsClient (parse : Parse) (r : Response) : Except String (List Json) :=
  if r.isOk then
    match responseJson parse r with
    | .ok data => getReadingListsNorm parse data
    | .error e => .error e
  else .error (httpErrMsg "Failed to fetch reading lists" r)

/-- The client function `getAllReadingLists` (api.ts lines 1054-1090): a non-2xx response falls
back to the `getReadingLists()` result (passed in as `fallback`) instead of
throwing, and the surrounding `catch` turns any exception into `[]`, so the
function never throws.  The normalization duplicates `getReadingLists`'s. -/
def getAllReadingListsClient (parse : Parse) (r : Response)
    (fallback : Except String (List Json)) : Except String (List Json) :=
  let tried : Except String (List Json) :=
    if r.isOk then
      match responseJson parse r with
      | .ok data => getReadingListsNorm parse data
      | .error e => .error e
    else fallback
  match tried with
  | .ok v => .ok v
  | .error _ => .ok []

/-- Normalization of `updateReadingList`'s response (api.ts lines 773-789):
unwrap a string `body`; a non-object payload throws; otherwise `bookIds` is
replaced by its string elements (or `[]`). -/
def updateReadingListNorm (parse : Parse) (data : Json) : Except String Json :=
  match unwrapBody parse data with
  | .error e => .error e
  | .ok itemRaw =>
      if itemRaw.isObject = false then .error "Invalid update reading list response"
      else
        let bookIds : List Json :=
          match itemRaw.get "bookIds" with
          | some (.arr l) => l.filter Json.isStr
          | _ => []
        .ok (toReadingListItem.jsSpreadSet itemRaw "bookIds" (.arr bookIds))

/-- A review record as constructed by `getReviews` / `createReview`. -/
structure Review where
  id : String
  bookId : String
  userId : String
  userName : Option String
  rating : Int
  comment : String
  createdAt : String
deriving DecidableEq, Repr

/-- The id selector `item.id ?? item.reviewId`. -/
def reviewIdRaw (item : Json) : Option Json :=
  jsOr (item.get "id") (item.get "reviewId")

/-- The display-name selector `item.userName ?? item.name ?? item.userDisplayName`. -/
def reviewUserNameRaw (item : Json) : Option Json :=
  jsOr (jsOr (item.get "userName") (item.get "name")) (item.get "userDisplayName")

/-- The test `typeof v === 'string'` on a possibly-undefined property value. -/
def isStrOpt : Option Json → Bool
  | some (.str _) => true
  | _ => false

/-- The test `typeof v === 'number'` on a possibly-undefined property value. -/
def isNumOpt : Option Json → Bool
  | some (.num _) => true
  | _ => false

/-- Extract the string from a property value known (by the guard) to be a
string; the default is never reached under the guard. -/
def asStr : Option Json → String
  | some (.str s) => s
  | _ => ""

/-- Extract the number from a property value known (by the guard) to be a
number; the default is never reached under the guard. -/
def asNum : Option Json → Int
  | some (.num n) => n
  | _ => 0

/-- The conjunction of the `typeof` checks on a review payload's required
fields (string id-or-reviewId, bookId, userId, comment, createdAt; number
rating), on an object. -/
def reviewFieldsOk (item : Json) : Bool :=
  isStrOpt (reviewIdRaw item) && isStrOpt (item.get "bookId") &&
    isStrOpt (item.get "userId") && isNumOpt (item.get "rating") &&
    isStrOpt (item.get "comment") && isStrOpt (item.get "createdAt")

/-- The full shape check a review payload must pass: it is an object and its
required fields pass their `typeof` checks. -/
def reviewShapeOk (item : Json) : Bool :=
  item.isObject && reviewFieldsOk item

/-- The optional `userName` field: included, trimmed, only when the raw value
is a non-blank string (`typeof userNameRaw === 'string' && userNameRaw.trim()`). -/
def reviewUserNameField (raw : Option Json) : Option String :=
  match raw with
  | some (.str un) => if un.trim = "" then none else some un.trim
  | _ => none

/-- The element mapper `toReview` inside `getReviews` (api.ts lines 862-894):
non-objects and records failing the `typeof` checks map to `null`. -/
def toReview (item : Json) : Option Review :=
  if item.isObject = false then none
  else
    if reviewFieldsOk item = false then none
    else
      some { id := asStr (reviewIdRaw item),
             bookId := asStr (item.get "bookId"),
             userId := asStr (item.get "userId"),
             userName := reviewUserNameField (reviewUserNameRaw item),
             rating := asNum (item.get "rating"),
             comment := asStr (item.get "comment"),
             createdAt := asStr (item.get "createdAt") }

/-- Normalization of `getReviews` (api.ts lines 853-896): unwrap a string
`body`; use an object's array `items` field when present, else the payload
itself; a non-array gives `[]`; elements are mapped through `toReview` and
`null`s filtered out. -/
def getReviewsNorm (parse : Parse) (data : Json) : Except String (List Review) :=
  match unwrapBody parse data with
  | .error e => .error e
  | .ok payload =>
      let itemsRaw : Json :=
        if payload.isObject then
          match payload.get "items" with
          | some (.arr l) => .arr l
          | _ => payload
        else payload
      match itemsRaw with
      | .arr l => .ok (l.filterMap toReview)
      | _ => .ok []

/-- The client function `getReviews` (api.ts lines 835-905). -/
def getReviewsClient (parse : Parse) (r : Response) : Except String (List Review) :=
  if r.isOk then
    match responseJson parse r with
    | .ok data => getReviewsNorm parse data
    | .error e => .error e
  else .error (httpErrMsg "Failed to fetch reviews" r)

/-- Normalization of `createReview`'s response (api.ts lines 936-973): the
same field checks as `toReview`, but a non-object payload throws
`Invalid create review response` and failing checks throw
`Invalid create review response shape` instead of yielding `null`. -/
def createReviewNorm (parse : Parse) (data : Json) : Except String Review :=
  match unwrapBody parse data with
  | .error e => .error e
  | .ok payload =>
      if payload.isObject = false then .error "Invalid create review response"
      else
        if reviewFieldsOk payload = false then .error "Invalid create review response shape"
        else
          .ok { id := asStr (reviewIdRaw payload),
                bookId := asStr (payload.get "bookId"),
                userId := asStr (payload.get "userId"),
                userName := reviewUserNameField (reviewUserNameRaw payload),
                rating := asNum (payload.get "rating"),
                comment := asStr (payload.get "comment"),
                createdAt := asStr (payload.get "createdAt") }

/-- The client function `createReview` (api.ts lines 910-982). -/
def createReviewClient (parse : Parse) (r : Response) : Except String Review :=
  if r.isOk then
    match responseJson parse r with
    | .ok data => createReviewNorm parse data
    | .error e => .error e
  else .error (httpErrMsg "Failed to create review" r)

/-!
## Client-side pagination (`Books` page, `Admin` page, `ReadingListDetail` page)
-/

/-- The formula `totalPages = Math.max(1, Math.ceil(itemCount / pageSize))`. -/
def totalPages (itemCount pageSize : Nat) : Nat :=
  max 1 ((itemCount + pageSize - 1) / pageSize)

/-- The clamp `Math.min(Math.max(currentPage, 1), totalPages)` used by the
Admin books table, the Admin reviews table and the reading-list detail page,
whose slice index is this clamped value. -/
def clampPage (currentPage total : Nat) : Nat :=
  min (max currentPage 1) total

/-- The pagination state of the Books catalog page: the filtered collection's
length and the raw `currentPage` state (which is what its slice uses). -/
structure BooksPag where
  count : Nat
  page : Nat
deriving DecidableEq, Repr

/-- The `totalPages` of the Books page (`pageSize = 12`). -/
def BooksPag.total (s : BooksPag) : Nat := totalPages s.count 12

/-- The helper `setPageSafe` (Books page): `Math.min(Math.max(1, page), totalPages)`. -/
def setPageSafe (s : BooksPag) (p : Nat) : BooksPag :=
  { s with page := min (max 1 p) s.total }

/-- The events that can change the Books page's pagination state: the Prev /
Next buttons (disabled at the boundary), a direct page selection (button or
gap dropdown, both routed through `setPageSafe`), and a change of search
query / filters / sort, which replaces the filtered count and resets the page
to 1 via the reset effect. -/
inductive BooksEvent where
  | prevClick
  | nextClick
  | selectPage (p : Nat)
  | filtersChange (newCount : Nat)
deriving DecidableEq, Repr

/-- One step of the Books page's pagination state machine. -/
def booksStep (s : BooksPag) : BooksEvent → BooksPag
  | .prevClick => if s.page = 1 then s else setPageSafe s (s.page - 1)
  | .nextClick => if s.page = s.total then s else setPageSafe s (s.page + 1)
  | .selectPage p => setPageSafe s p
  | .filtersChange n => { count := n, page := 1 }

/-- The Books page mounts with `currentPage = 1`; the one-time book load
happens while the page is still 1, so initial states are `(n, 1)`. -/
def booksInit (n : Nat) : BooksPag := { count := n, page := 1 }

/-- The Books pagination state reached after a sequence of events. -/
def booksRun (n : Nat) (evs : List BooksEvent) : BooksPag :=
  evs.foldl booksStep (booksInit n)

/-- The in-range invariant for the Books page's raw page index. -/
def booksInv (s : BooksPag) : Prop :=
  1 ≤ s.page ∧ s.page ≤ s.total

/-!
## Admin `fetchAllReviews` cursor loop (`Admin.tsx` lines 69-84)

`getAllReviews` itself is not part of the repository's sources; the backend
is abstracted as the sequence of `{items, nextToken}` responses its
successive calls return, which is exactly what the claim quantifies over.
-/

/-- One `getAllReviews` response: a page of reviews and an optional cursor. -/
structure ReviewsResp where
  items : List Review
  nextToken : Option String

/-- The body of `fetchAllReviews`'s `do/while` loop: `pageGuard++ > 50`
breaks out (so the guard admits `pageGuard = 0 … 50`, i.e. at most 51 calls);
otherwise the next page is fetched, appended, and the loop continues while
`nextToken` is truthy. -/
def fetchAllReviewsGo (backend : Nat → ReviewsResp) (pageGuard call : Nat)
    (acc : List Review) : List Review :=
  if 50 < pageGuard then acc
  else
    let res := backend call
    let acc2 := acc ++ res.items
    match res.nextToken with
    | none => acc2
    | some _ => fetchAllReviewsGo backend (pageGuard + 1) (call + 1) acc2
termination_by 51 - pageGuard
decreasing_by omega

/-- The function `fetchAllReviews`: run the loop from an empty accumulator. -/
def fetchAllReviews (backend : Nat → ReviewsResp) : List Review :=
  fetchAllReviewsGo backend 0 0 []

/-- The number of `getAllReviews` calls the loop performs, counted alongside
the loop itself. -/
def fetchCallsGo (backend : Nat → ReviewsResp) (pageGuard call : Nat) : Nat :=
  if 50 < pageGuard then 0
  else
    match (backend call).nextToken with
    | none => 1
    | some _ => 1 + fetchCallsGo backend (pageGuard + 1) (call + 1)
termination_by 51 - pageGuard
decreasing_by omega

/-- The number of `getAllReviews` calls `fetchAllReviews` performs. -/
def fetchCalls (backend : Nat → ReviewsResp) : Nat :=
  fetchCallsGo backend 0 0

/-!
## Reading-list completion toggling (`ReadingListDetail`, part_006 lines 171-194)

The component state relevant to `toggleCompleted`: the `completedIds` set
(a JavaScript `Set`, embedded as a `Finset`) and the `list` record, of which
we keep the fields the toggle reads or writes.
-/

/-- The reading-list record held in the detail page's `list` state. -/
structure ReadingListRec where
  name : String
  description : String
  bookIds : List String
  completedBookIds : Option (List String)
deriving DecidableEq, Repr

/-- The detail page's state touched by `toggleCompleted`. -/
structure DetailState where
  completedIds : Finset String
  list : ReadingListRec
deriving DecidableEq

/-- The membership flip at the top of `toggleCompleted`:
`if (next.has(bookId)) next.delete(bookId); else next.add(bookId)`. -/
def flipCompleted (s : Finset String) (bookId : String) : Finset String :=
  if bookId ∈ s then s.erase bookId else insert bookId s

/-- The conversion `Array.from(set)`: serialize the set to a list.  A JavaScript `Set`
iterates in insertion order; the embedding serializes in sorted order, an
unobservable difference here since the list is only ever read back as a set. -/
def finsetToArray (s : Finset String) : List String :=
  s.sort (fun a b => a ≤ b)

/-- The optimistic update performed before the network call:
`setCompletedIds(next)` and `setList({ ...list, completedBookIds: Array.from(next) })`. -/
def toggleOptimistic (st : DetailState) (bookId : String) : DetailState :=
  let next := flipCompleted st.completedIds bookId
  { completedIds := next,
    list := { st.list with completedBookIds := some (finsetToArray next) } }

/-- The rollback in the `catch` branch, which restores from the captured
pre-toggle `list`:
`setCompletedIds(new Set(Array.isArray(list.completedBookIds) ? list.completedBookIds : []))`
and `setList(list)`. -/
def toggleRollback (st : DetailState) : DetailState :=
  { completedIds :=
      match st.list.completedBookIds with
      | some l => l.toFinset
      | none => ∅,
    list := st.list }

/-- The net effect of `toggleCompleted` on the detail state, indexed by
whether the awaited `updateReadingList` call succeeds. -/
def toggleCompleted (st : DetailState) (bookId : String) (updateSucceeds : Bool) :
    DetailState :=
  if updateSucceeds then toggleOptimistic st bookId else toggleRollback st

/-- The detail page's sync invariant: `completedIds` mirrors
`list.completedBookIds` (established at load and maintained by every update). -/
def detailSync (st : DetailState) : Prop :=
  st.completedIds =
    match st.list.completedBookIds with
    | some l => l.toFinset
    | none => ∅

/-!
## Theorems
-/

theorem flipCompleted_involutive (s : Finset String) (b : String) :
    flipCompleted (flipCompleted s b) b = s := by
  by_cases h : b ∈ s
  · simp [flipCompleted, h, Finset.not_mem_erase, Finset.insert_erase]
  · simp [flipCompleted, h, Finset.erase_insert]

/-- C4: toggling a book's completion twice, with both server updates
succeeding, restores the pre-toggle completed-set: the effect of
`toggleCompleted` on the set of completed book ids is an involution, both on
the `completedIds` state and on the set recorded in the list's
`completedBookIds`. -/
theorem toggleCompleted_twice_restores (st : DetailState) (b : String) :
    (toggleCompleted (toggleCompleted st b true) b true).completedIds
        = st.completedIds ∧
    (((toggleCompleted (toggleCompleted st b true) b true).list.completedBookIds.getD
        []).toFinset) = st.completedIds := by
  refine ⟨?_, ?_⟩
  · simp [toggleCompleted, toggleOptimistic, flipCompleted_involutive]
  · simp [toggleCompleted, toggleOptimistic, finsetToArray,
      flipCompleted_involutive, Finset.sort_toFinset]

theorem mem_flipCompleted (s : Finset String) (b : String) :
    b ∈ flipCompleted s b ↔ b ∉ s := by
  by_cases h : b ∈ s
  · simp [flipCompleted, h, Finset.not_mem_erase]
  · simp [flipCompleted, h]

/-- C5: `toggleCompleted` applies the completion flip optimistically (the
optimistic state really flips membership of the toggled book), and when the
`updateReadingList` call fails, the rollback restores exactly the pre-toggle
`completedIds` and `list` state, given the page's sync invariant between the
two. -/
theorem toggleCompleted_rollback_on_error (st : DetailState) (b : String)
    (hsync : detailSync st) :
    toggleCompleted st b false = st ∧
    (b ∈ (toggleOptimistic st b).completedIds ↔ b ∉ st.completedIds) := by
  refine ⟨?_, ?_⟩
  · obtain ⟨c, l⟩ := st
    simp only [detailSync] at hsync
    simp [toggleCompleted, toggleRollback, hsync]
  · simpa [toggleOptimistic] using mem_flipCompleted st.completedIds b

/-- A concrete detail state satisfying the sync invariant. -/
def detailState0 : DetailState :=
  { completedIds := {"b1"},
    list := { name := "My list", description := "", bookIds := ["b1", "b2"],
              completedBookIds := some ["b1"] } }

theorem toggleCompleted_rollback_on_error_witness :
    toggleCompleted detailState0 "b2" false = detailState0 ∧
    ("b2" ∈ (toggleOptimistic detailState0 "b2").completedIds ↔
      "b2" ∉ detailState0.completedIds) :=
  toggleCompleted_rollback_on_error detailState0 "b2"
    (show detailState0.completedIds = _ by decide)

theorem totalPages_pos (c ps : Nat) : 1 ≤ totalPages c ps :=
  le_max_left 1 _

theorem setPageSafe_inv (s : BooksPag) (p : Nat) : booksInv (setPageSafe s p) :=
  ⟨le_min (le_max_left 1 p) (totalPages_pos s.count 12), min_le_right _ _⟩

theorem booksStep_inv (s : BooksPag) (e : BooksEvent) (h : booksInv s) :
    booksInv (booksStep s e) := by
  cases e with
  | prevClick =>
      by_cases h1 : s.page = 1
      · simpa [booksStep, h1] using h
      · simpa [booksStep, h1] using setPageSafe_inv s (s.page - 1)
  | nextClick =>
      by_cases h1 : s.page = s.total
      · simpa [booksStep, h1] using h
      · simpa [booksStep, h1] using setPageSafe_inv s (s.page + 1)
  | selectPage p => simpa [booksStep] using setPageSafe_inv s p
  | filtersChange n => exact ⟨le_refl 1, totalPages_pos n 12⟩

theorem booksFoldl_inv (evs : List BooksEvent) :
    ∀ s : BooksPag, booksInv s → booksInv (evs.foldl booksStep s) := by
  induction evs with
  | nil => intro s h; exact h
  | cons e es ih => intro s h; exact ih (booksStep s e) (booksStep_inv s e h)

/-- C7: the page index each paginated view slices with stays between 1 and
`totalPages`.  For the Books catalog (whose slice uses the raw
`currentPage`), every state reachable from a mount through pagination clicks
and filter changes satisfies the invariant; for the Admin books and reviews
tables and the reading-list detail page, the slice index is the clamped page,
which lies in range by construction for every raw page value. -/
theorem pagination_page_in_range :
    (∀ (n : Nat) (evs : List BooksEvent), booksInv (booksRun n evs)) ∧
    (∀ currentPage itemCount : Nat,
      1 ≤ clampPage currentPage (totalPages itemCount 10) ∧
      clampPage currentPage (totalPages itemCount 10) ≤ totalPages itemCount 10) := by
  refine ⟨?_, ?_⟩
  · intro n evs
    exact booksFoldl_inv evs (booksInit n) ⟨le_refl 1, totalPages_pos n 12⟩
  · intro p c
    exact ⟨le_min (le_max_right p 1) (totalPages_pos c 10), min_le_right _ _⟩

theorem fetchCallsGo_le (backend : Nat → ReviewsResp) :
    ∀ (fuel g c : Nat), 51 - g ≤ fuel → fetchCallsGo backend g c ≤ 51 - g := by
  intro fuel
  induction fuel with
  | zero =>
      intro g c hf
      have hg : 50 < g := by omega
      unfold fetchCallsGo
      simp [hg]
  | succ n ih =>
      intro g c hf
      unfold fetchCallsGo
      by_cases hg : 50 < g
      · simp [hg]
      · simp only [hg, if_false]
        cases hnt : (backend c).nextToken with
        | none => simp; omega
        | some t =>
            simp only []
            have h2 := ih (g + 1) (c + 1) (by omega)
            omega

theorem fetchAllReviewsGo_spec (backend : Nat → ReviewsResp) :
    ∀ (fuel g c : Nat) (acc : List Review), 51 - g ≤ fuel →
      fetchAllReviewsGo backend g c acc =
        acc ++ ((List.range' c (fetchCallsGo backend g c)).map
          (fun i => (backend i).items)).flatten := by
  intro fuel
  induction fuel with
  | zero =>
      intro g c acc hf
      have hg : 50 < g := by omega
      unfold fetchAllReviewsGo fetchCallsGo
      simp [hg]
  | succ n ih =>
      intro g c acc hf
      unfold fetchAllReviewsGo fetchCallsGo
      by_cases hg : 50 < g
      · simp [hg]
      · simp only [hg, if_false]
        cases hnt : (backend c).nextToken with
        | none => simp [List.range'_succ]
        | some t =>
            simp only []
            rw [ih (g + 1) (c + 1) (acc ++ (backend c).items) (by omega)]
            have h1 : 1 + fetchCallsGo backend (g + 1) (c + 1)
                = fetchCallsGo backend (g + 1) (c + 1) + 1 := Nat.add_comm _ _
            rw [h1, List.range'_succ]
            simp [List.append_assoc]

/-- C8: for every sequence of backend responses — including one returning a
non-empty `nextToken` forever — the admin `fetchAllReviews` cursor loop makes
at most 51 calls to `getAllReviews` and returns exactly the reviews
accumulated from the pages those calls returned, in order. -/
theorem fetchAllReviews_bounded (backend : Nat → ReviewsResp) :
    fetchCalls backend ≤ 51 ∧
    fetchAllReviews backend =
      ((List.range (fetchCalls backend)).map (fun i => (backend i).items)).flatten := by
  refine ⟨?_, ?_⟩
  · simpa using fetchCallsGo_le backend 51 0 0 (by omega)
  · unfold fetchAllReviews fetchCalls
    rw [fetchAllReviewsGo_spec backend 51 0 0 [] (by omega), List.range_eq_range']
    simp

/-!
## Concrete fixtures

A concrete `JSON.parse` oracle, agreeing with the real `JSON.parse` on the
handful of body texts the witnesses and counterexamples use.
-/

/-- The JSON text `[1]`. -/
def jsInner : String := "[1]"

/-- The JSON text encoding the object whose `body` field is the string `[1]`
(quotes escaped as `JSON.stringify` would). -/
def jsOuter : String := "\x7b\"body\":\"[1]\"\x7d"

/-- The JSON text `null`. -/
def jsNullTxt : String := "null"

/-- The JSON text of an object whose `items` and `recommendations` fields are
numbers, not arrays. -/
def jsItemsBad : String := "\x7b\"items\":5,\"recommendations\":3\x7d"

/-- A concrete book record. -/
def bookJson0 : Json :=
  .obj [ ( "id", .str "1" ) , ( "title", .str "Dune" ) ]

/-- The JSON text of a bare one-book array. -/
def jsBareArr : String := "[\x7b\"id\":\"1\",\"title\":\"Dune\"\x7d]"

/-- The JSON text of the Lambda-proxy envelope whose `body` is the JSON
encoding of that one-book array. -/
def jsProxyArr : String :=
  "\x7b\"body\":\"[\x7b\\\"id\\\":\\\"1\\\",\\\"title\\\":\\\"Dune\\\"\x7d]\"\x7d"

/-- The JSON text of the paginated envelope holding that one-book array. -/
def jsEnvArr : String :=
  "\x7b\"items\":[\x7b\"id\":\"1\",\"title\":\"Dune\"\x7d],\"nextToken\":\"t\"\x7d"

/-- A concrete well-shaped review record. -/
def reviewJson0 : Json :=
  .obj [ ( "id", .str "r1" ) , ( "bookId", .str "b1" ) , ( "userId", .str "u1" ) ,
         ( "rating", .num 5 ) , ( "comment", .str "good" ) , ( "createdAt", .str "2024" ) ]

/-- A concrete malformed review record (numeric `id`, missing fields). -/
def badReview0 : Json := .obj [ ( "id", .num 7 ) ]

/-- The JSON text of a bare array holding one well-shaped and one malformed
review. -/
def jsReviews : String :=
  "[\x7b\"id\":\"r1\",\"bookId\":\"b1\",\"userId\":\"u1\",\"rating\":5,\"comment\":\"good\",\"createdAt\":\"2024\"\x7d,\x7b\"id\":7\x7d]"

/-- A concrete parse oracle for the fixture texts above. -/
def parse0 : Parse := fun s =>
  if s = jsReviews then some (.arr [ reviewJson0, badReview0 ])
  else
  if s = jsInner then some (.arr [ .num 1 ])
  else if s = jsOuter then some (.obj [ ( "body", .str jsInner ) ])
  else if s = jsNullTxt then some .null
  else if s = jsItemsBad then
    some (.obj [ ( "items", .num 5 ) , ( "recommendations", .num 3 ) ])
  else if s = jsBareArr then some (.arr [ bookJson0 ])
  else if s = jsProxyArr then some (.obj [ ( "body", .str jsBareArr ) ])
  else if s = jsEnvArr then
    some (.obj [ ( "items", .arr [ bookJson0 ] ) , ( "nextToken", .str "t" ) ])
  else none

/-!
## Evaluation helpers: a 2xx response runs the decoded data through the
function's normalization.
-/

theorem getBooksClient_ok_eval (parse : Parse) (r : Response) (data : Json)
    (hok : r.isOk = true) (hdec : parse r.bodyText = some data) :
    getBooksClient parse r = getBooksNorm parse data := by
  simp [getBooksClient, responseJson, hok, hdec]

theorem getReadingListsClient_ok_eval (parse : Parse) (r : Response) (data : Json)
    (hok : r.isOk = true) (hdec : parse r.bodyText = some data) :
    getReadingListsClient parse r = getReadingListsNorm parse data := by
  simp [getReadingListsClient, responseJson, hok, hdec]

theorem getReviewsClient_ok_eval (parse : Parse) (r : Response) (data : Json)
    (hok : r.isOk = true) (hdec : parse r.bodyText = some data) :
    getReviewsClient parse r = getReviewsNorm parse data := by
  simp [getReviewsClient, responseJson, hok, hdec]

theorem getRecommendationsClient_ok_eval (parse : Parse) (r : Response) (data : Json)
    (hok : r.isOk = true) (hdec : parse r.bodyText = some data) :
    getRecommendationsClient parse r = getRecommendationsNorm parse data := by
  simp [getRecommendationsClient, responseJson, hok, hdec]

theorem createReviewClient_ok_eval (parse : Parse) (r : Response) (data : Json)
    (hok : r.isOk = true) (hdec : parse r.bodyText = some data) :
    createReviewClient parse r = createReviewNorm parse data := by
  simp [createReviewClient, responseJson, hok, hdec]

theorem unwrapBody_plain (parse : Parse) (data : Json)
    (hbody : data.bodyString = none) : unwrapBody parse data = .ok data := by
  simp [unwrapBody, hbody]

theorem unwrapBody_wrapped (parse : Parse) (data : Json) (s : String) (payload : Json)
    (hbody : data.bodyString = some s) (hparse : parse s = some payload) :
    unwrapBody parse data = .ok payload := by
  simp [unwrapBody, hbody, hparse]

/-- C1: for a 2xx response whose decoded payload is an object with no proxy
`body` wrapping and whose `items` (resp. `recommendations`) field is not an
array, `getReviews`, `getRecommendations` and `getReadingLists` all return an
empty collection rather than raising an exception. -/
theorem normalizers_empty_on_nonarray_items
    (parse : Parse) (r : Response) (fields : List (String × Json))
    (hok : r.isOk = true)
    (hdec : parse r.bodyText = some (.obj fields))
    (hbody : (Json.obj fields).bodyString = none)
    (hitems : ∀ l, (Json.obj fields).get "items" ≠ some (.arr l))
    (hrecs : ∀ l, (Json.obj fields).get "recommendations" ≠ some (.arr l)) :
    getReviewsClient parse r = .ok [] ∧
    getRecommendationsClient parse r = .ok [] ∧
    getReadingListsClient parse r = .ok [] := by
  refine ⟨?_, ?_, ?_⟩
  · rw [getReviewsClient_ok_eval parse r _ hok hdec]
    rw [getReviewsNorm, unwrapBody_plain parse _ hbody]
    -- the `items` match's default-case condition is discharged by `hitems`
    simp only [Json.isObject, if_true]
  · rw [getRecommendationsClient_ok_eval parse r _ hok hdec]
    rw [getRecommendationsNorm, unwrapBody_plain parse _ hbody]
    -- the `recommendations` match's default-case condition is discharged by `hrecs`
    simp only [Json.isObject, Bool.false_eq_true, if_false]
    simp
  · rw [getReadingListsClient_ok_eval parse r _ hok hdec]
    simp [getReadingListsNorm, hbody]

/-- The 2xx response fixture whose payload has non-array `items` and
`recommendations` fields. -/
def rItemsBad : Response := { status := 200, statusText := "OK", bodyText := jsItemsBad }

theorem normalizers_empty_on_nonarray_items_witness :
    getReviewsClient parse0 rItemsBad = .ok [] ∧
    getRecommendationsClient parse0 rItemsBad = .ok [] ∧
    getReadingListsClient parse0 rItemsBad = .ok [] :=
  normalizers_empty_on_nonarray_items parse0 rItemsBad
    [ ( "items", .num 5 ) , ( "recommendations", .num 3 ) ]
    rfl rfl rfl
    (by intro l h; simp [Json.get] at h)
    (by intro l h; simp [Json.get] at h)

/-- C2 (amended): for a 2xx response, `getBooks`, `getReadingLists` and
`getReviews` all return without raising an exception on each of the three
envelope shapes.  A bare JSON array and a Lambda-proxy envelope whose string
`body` encodes an array yield the contained records (normalized per
function); the `{items, nextToken}` paginated envelope is unwrapped only by
`getReviews`, while `getBooks` and `getReadingLists` return an empty list
for it. -/
theorem envelope_shapes_tolerated
    (parse : Parse) (r : Response) (l : List Json) (s : String)
    (fields : List (String × Json)) (hok : r.isOk = true) :
    (parse r.bodyText = some (.arr l) →
      getBooksClient parse r = .ok l ∧
      getReadingListsClient parse r = .ok (l.filterMap toReadingListItem) ∧
      getReviewsClient parse r = .ok (l.filterMap toReview)) ∧
    (parse r.bodyText = some (.obj fields) →
      (Json.obj fields).bodyString = some s → parse s = some (.arr l) →
      getBooksClient parse r = .ok l ∧
      getReadingListsClient parse r = .ok (l.filterMap toReadingListItem) ∧
      getReviewsClient parse r = .ok (l.filterMap toReview)) ∧
    (parse r.bodyText = some (.obj fields) →
      (Json.obj fields).bodyString = none →
      (Json.obj fields).get "items" = some (.arr l) →
      getBooksClient parse r = .ok [] ∧
      getReadingListsClient parse r = .ok [] ∧
      getReviewsClient parse r = .ok (l.filterMap toReview)) := by
  refine ⟨?_, ?_, ?_⟩
  · intro hdec
    refine ⟨?_, ?_, ?_⟩
    · rw [getBooksClient_ok_eval parse r _ hok hdec]
      simp [getBooksNorm]
    · rw [getReadingListsClient_ok_eval parse r _ hok hdec]
      simp [getReadingListsNorm]
    · rw [getReviewsClient_ok_eval parse r _ hok hdec]
      simp [getReviewsNorm, unwrapBody, Json.bodyString, Json.get, Json.isObject]
  · intro hdec hbody hs
    refine ⟨?_, ?_, ?_⟩
    · rw [getBooksClient_ok_eval parse r _ hok hdec]
      simp [getBooksNorm, hbody, hs]
    · rw [getReadingListsClient_ok_eval parse r _ hok hdec]
      simp [getReadingListsNorm, hbody, hs]
    · rw [getReviewsClient_ok_eval parse r _ hok hdec]
      rw [getReviewsNorm, unwrapBody_wrapped parse _ s _ hbody hs]
      simp [Json.isObject, Json.get]
  · intro hdec hbody hi
    refine ⟨?_, ?_, ?_⟩
    · rw [getBooksClient_ok_eval parse r _ hok hdec]
      simp [getBooksNorm, hbody]
    · rw [getReadingListsClient_ok_eval parse r _ hok hdec]
      simp [getReadingListsNorm, hbody]
    · rw [getReviewsClient_ok_eval parse r _ hok hdec]
      rw [getReviewsNorm, unwrapBody_plain parse _ hbody]
      simp [Json.isObject, hi]

/-- The 2xx response fixture carrying the paginated `{items, nextToken}`
envelope around a one-book array. -/
def rEnvArr : Response := { status := 200, statusText := "OK", bodyText := jsEnvArr }

/-- C2 counterexample: on the `{items, nextToken}` envelope, `getBooks` does
not return the contained records — it returns the empty list even though the
envelope's `items` field holds one book record. -/
theorem getBooks_drops_items_envelope :
    getBooksClient parse0 rEnvArr = .ok [] ∧
    (parse0 rEnvArr.bodyText).map (fun d => d.get "items")
        = some (some (.arr [ bookJson0 ])) ∧
    (Except.ok ([] : List Json) : Except String (List Json)) ≠ .ok [ bookJson0 ] := by
  refine ⟨rfl, rfl, ?_⟩
  simp [bookJson0]

/-- The 2xx response fixtures for the bare-array and Lambda-proxy shapes. -/
def rBareArr : Response := { status := 200, statusText := "OK", bodyText := jsBareArr }

/-- The Lambda-proxy fixture response. -/
def rProxyArr : Response := { status := 200, statusText := "OK", bodyText := jsProxyArr }

theorem envelope_shapes_tolerated_witness :
    getBooksClient parse0 rBareArr = .ok [ bookJson0 ] ∧
    getBooksClient parse0 rProxyArr = .ok [ bookJson0 ] ∧
    getReviewsClient parse0 rEnvArr = .ok ([ bookJson0 ].filterMap toReview) ∧
    getReadingListsClient parse0 rBareArr = .ok ([ bookJson0 ].filterMap toReadingListItem) := by
  refine ⟨?_, ?_, ?_, ?_⟩
  · exact ((envelope_shapes_tolerated parse0 rBareArr [ bookJson0 ] jsBareArr []
      rfl).1 rfl).1
  · exact ((envelope_shapes_tolerated parse0 rProxyArr [ bookJson0 ] jsBareArr
      [ ( "body", .str jsBareArr ) ] rfl).2.1 rfl rfl rfl).1
  · exact ((envelope_shapes_tolerated parse0 rEnvArr [ bookJson0 ] jsBareArr
      [ ( "items", .arr [ bookJson0 ] ) , ( "nextToken", .str "t" ) ] rfl).2.2
      rfl rfl rfl).2.2
  · exact ((envelope_shapes_tolerated parse0 rBareArr [ bookJson0 ] jsBareArr []
      rfl).1 rfl).2.1

theorem httpErrMsg_includes (head : String) (r : Response) :
    strIncludes (toString r.status) (httpErrMsg head r) ∧
    strIncludes r.bodyText (httpErrMsg head r) := by
  constructor
  · refine ⟨(head ++ ": ").data, (" " ++ r.statusText ++ ". " ++ r.bodyText).data, ?_⟩
    simp [httpErrMsg, String.data_append, List.append_assoc]
  · refine ⟨(head ++ ": " ++ toString r.status ++ " " ++ r.statusText ++ ". ").data,
      ([] : List Char), ?_⟩
    simp [httpErrMsg, String.data_append, List.append_assoc]

/-- C3 (amended): for every non-2xx response, `getBooks` throws an error
whose message contains the status code and the body text; `getBook` instead
resolves to `null` on 404 and throws the fixed message
`Failed to fetch book` (without status or body) on any other non-2xx status;
and `getAllReadingLists` does not throw at all — it returns the fallback
`getReadingLists()` result, or `[]` when that also fails. -/
theorem http_error_surfacing
    (parse : Parse) (r : Response) (fallback : Except String (List Json))
    (hok : r.isOk = false) :
    (getBooksClient parse r = .error (httpErrMsg "Failed to fetch books" r) ∧
      strIncludes (toString r.status) (httpErrMsg "Failed to fetch books" r) ∧
      strIncludes r.bodyText (httpErrMsg "Failed to fetch books" r)) ∧
    (r.status ≠ 404 → getBookClient parse r = .error "Failed to fetch book") ∧
    (r.status = 404 → getBookClient parse r = .ok none) ∧
    (getAllReadingListsClient parse r fallback =
      match fallback with
      | .ok v => .ok v
      | .error _ => .ok []) := by
  refine ⟨⟨?_, (httpErrMsg_includes _ r).1, (httpErrMsg_includes _ r).2⟩, ?_, ?_, ?_⟩
  · simp [getBooksClient, hok]
  · intro h404
    simp [getBookClient, h404, hok]
  · intro h404
    simp [getBookClient, h404]
  · simp only [getAllReadingListsClient, hok, Bool.false_eq_true, if_false]

/-- The non-2xx response fixture. -/
def r500 : Response :=
  { status := 500, statusText := "Internal Server Error", bodyText := "boom" }

/-- C3 counterexample: on a 500 response, `getBook` throws the fixed message
`Failed to fetch book`, which contains neither the status code nor the body
text — so not every API-client function surfaces non-2xx failures with
status code and body text in the message. -/
theorem getBook_error_lacks_status_and_body :
    getBookClient parse0 r500 = .error "Failed to fetch book" ∧
    ¬ strIncludes "500" "Failed to fetch book" ∧
    ¬ strIncludes "boom" "Failed to fetch book" := by
  refine ⟨rfl, by decide, by decide⟩

theorem http_error_surfacing_witness :
    getBooksClient parse0 r500 = .error (httpErrMsg "Failed to fetch books" r500) ∧
    getBookClient parse0 r500 = .error "Failed to fetch book" ∧
    getAllReadingListsClient parse0 r500 (.error "network") = .ok [] :=
  ⟨(http_error_surfacing parse0 r500 (.error "network") rfl).1.1,
   (http_error_surfacing parse0 r500 (.error "network") rfl).2.1 (by decide),
   (http_error_surfacing parse0 r500 (.error "network") rfl).2.2.2⟩

theorem isStrOpt_eq_some (o : Option Json) (h : isStrOpt o = true) :
    o = some (.str (asStr o)) := by
  cases o with
  | none => simp [isStrOpt] at h
  | some v => cases v <;> simp_all [isStrOpt, asStr]

theorem isNumOpt_eq_some (o : Option Json) (h : isNumOpt o = true) :
    o = some (.num (asNum o)) := by
  cases o with
  | none => simp [isNumOpt] at h
  | some v => cases v <;> simp_all [isNumOpt, asNum]

/-- C6: `toReview` yields a record exactly for payloads passing the shape
check, so elements failing the `typeof` checks are silently dropped from
`getReviews`'s collection; every returned record's fields come verbatim from
an input element that passed those checks; and for the singular
`createReview` response a payload failing the same checks raises a generic
parse error instead of a malformed record being returned. -/
theorem review_validation
    (parse : Parse) (r : Response) (data payload : Json) (items : List Json) :
    (∀ item : Json, (toReview item).isSome = true ↔ reviewShapeOk item = true) ∧
    (∀ (item : Json) (rv : Review), toReview item = some rv →
      reviewIdRaw item = some (.str rv.id) ∧
      item.get "bookId" = some (.str rv.bookId) ∧
      item.get "userId" = some (.str rv.userId) ∧
      item.get "rating" = some (.num rv.rating) ∧
      item.get "comment" = some (.str rv.comment) ∧
      item.get "createdAt" = some (.str rv.createdAt)) ∧
    (r.isOk = true → parse r.bodyText = some (.arr items) →
      getReviewsClient parse r = .ok (items.filterMap toReview)) ∧
    (r.isOk = true → parse r.bodyText = some data →
      unwrapBody parse data = .ok payload → reviewShapeOk payload = false →
      createReviewClient parse r =
        .error (if payload.isObject then "Invalid create review response shape"
                else "Invalid create review response")) := by
  refine ⟨?_, ?_, ?_, ?_⟩
  · intro item
    cases hb : item.isObject with
    | false => simp [toReview, reviewShapeOk, hb]
    | true =>
        cases hf : reviewFieldsOk item with
        | false => simp [toReview, reviewShapeOk, hb, hf]
        | true => simp [toReview, reviewShapeOk, hb, hf]
  · intro item rv h
    cases hb : item.isObject with
    | false => simp [toReview, hb] at h
    | true =>
        cases hf : reviewFieldsOk item with
        | false => simp [toReview, hb, hf] at h
        | true =>
            simp only [toReview, hb, hf, Bool.true_eq_false, if_false,
              Option.some.injEq] at h
            have hfall := hf
            simp only [reviewFieldsOk, Bool.and_eq_true] at hfall
            obtain ⟨⟨⟨⟨⟨hid, hbk⟩, hus⟩, hrt⟩, hcm⟩, hca⟩ := hfall
            rw [← h]
            exact ⟨isStrOpt_eq_some _ hid, isStrOpt_eq_some _ hbk,
              isStrOpt_eq_some _ hus, isNumOpt_eq_some _ hrt,
              isStrOpt_eq_some _ hcm, isStrOpt_eq_some _ hca⟩
  · intro hok hdec
    rw [getReviewsClient_ok_eval parse r _ hok hdec]
    simp [getReviewsNorm, unwrapBody, Json.bodyString, Json.get, Json.isObject]
  · intro hok hdec hunwrap hshape
    rw [createReviewClient_ok_eval parse r _ hok hdec]
    rw [createReviewNorm, hunwrap]
    cases hb : payload.isObject with
    | false => simp [hb]
    | true =>
        have hf : reviewFieldsOk payload = false := by
          simpa [reviewShapeOk, hb] using hshape
        simp [hb, hf]

/-- The 2xx response fixture carrying one valid and one malformed review. -/
def rReviews : Response := { status := 200, statusText := "OK", bodyText := jsReviews }

/-- The malformed singular payload fixture. -/
def badPayload0 : Json :=
  .obj [ ( "items", .num 5 ) , ( "recommendations", .num 3 ) ]

theorem review_validation_witness :
    getReviewsClient parse0 rReviews = .ok ([ reviewJson0, badReview0 ].filterMap toReview) ∧
    createReviewClient parse0 rItemsBad = .error "Invalid create review response shape" :=
  ⟨(review_validation parse0 rReviews (.arr []) (.arr [])
      [ reviewJson0, badReview0 ]).2.2.1 rfl rfl,
   (review_validation parse0 rItemsBad badPayload0 badPayload0 []).2.2.2
      rfl rfl rfl rfl⟩

/-- C9 (amended): normalization is invariant under one Lambda-proxy
wrapping for every payload `P` that is not itself an object carrying a
string `body` field: applying `getBooks`'s, `getReviews`'s or
`updateReadingList`'s normalization to any envelope whose `body` string
decodes to `P` gives the same result as applying it to `P` directly.  (For a
payload that does carry a string `body` field the two sides differ, since
the unwrap is applied at most once — see the counterexample.) -/
theorem proxy_wrapping_invariance
    (parse : Parse) (s : String) (P data : Json)
    (hparse : parse s = some P)
    (hP : P.bodyString = none)
    (hdata : data.bodyString = some s) :
    getBooksNorm parse data = getBooksNorm parse P ∧
    getReviewsNorm parse data = getReviewsNorm parse P ∧
    updateReadingListNorm parse data = updateReadingListNorm parse P := by
  have hwrap : unwrapBody parse data = .ok P := unwrapBody_wrapped parse data s P hdata hparse
  have hplain : unwrapBody parse P = .ok P := unwrapBody_plain parse P hP
  refine ⟨?_, ?_, ?_⟩
  · rcases data with _ | b | n | st | l | dfs <;>
      simp_all [Json.bodyString, Json.get]
    · -- data is an object: unwrap once, then both sides normalize `P`
      rcases P with _ | b2 | n2 | st2 | l2 | pfs <;>
        simp_all [getBooksNorm, Json.bodyString, Json.get]
  · rw [getReviewsNorm, getReviewsNorm, hwrap, hplain]
  · rw [updateReadingListNorm, updateReadingListNorm, hwrap, hplain]

/-- The payload fixture that itself carries a string `body` field. -/
def proxyishPayload : Json := .obj [ ( "body", .str jsInner ) ]

/-- The envelope fixture whose `body` is the JSON encoding of
`proxyishPayload`. -/
def proxyishEnvelope : Json := .obj [ ( "body", .str jsOuter ) ]

/-- C9 counterexample: for the payload `{"body":"[1]"}` — whose JSON encoding
`parse0` decodes back to it — `getBooks`'s normalization of the wrapping
envelope returns `[]` while normalizing the payload directly returns the
inner array, so normalization is not invariant under Lambda-proxy wrapping
for every payload. -/
theorem proxy_wrapping_not_invariant :
    parse0 jsOuter = some proxyishPayload ∧
    getBooksNorm parse0 proxyishEnvelope = .ok [] ∧
    getBooksNorm parse0 proxyishPayload = .ok [ .num 1 ] ∧
    (Except.ok ([] : List Json) : Except String (List Json)) ≠ .ok [ .num 1 ] := by
  refine ⟨rfl, rfl, rfl, ?_⟩
  simp

theorem proxy_wrapping_invariance_witness :
    getBooksNorm parse0 proxyishPayload = getBooksNorm parse0 (.arr [ .num 1 ]) ∧
    getReviewsNorm parse0 proxyishPayload = getReviewsNorm parse0 (.arr [ .num 1 ]) ∧
    updateReadingListNorm parse0 proxyishPayload
      = updateReadingListNorm parse0 (.arr [ .num 1 ]) :=
  proxy_wrapping_invariance parse0 jsInner (.arr [ .num 1 ]) proxyishPayload
    rfl rfl rfl

/-- C10 (amended): `getBook` resolves to `null` when the status is 404, and
also when a 2xx payload (after unwrapping a string `body`) decodes to JSON
`null`; every other non-2xx status throws; and a 2xx response whose payload
decodes returns the decoded payload.  A missing book is therefore not
distinguishable from a 2xx `null` payload at the public interface. -/
theorem getBook_classification
    (parse : Parse) (r : Response) (data payload : Json) :
    (r.status = 404 → getBookClient parse r = .ok none) ∧
    (r.status ≠ 404 → r.isOk = false →
      getBookClient parse r = .error "Failed to fetch book") ∧
    (r.isOk = true → parse r.bodyText = some data →
      unwrapBody parse data = .ok payload →
      getBookClient parse r = .ok (jsNullable payload)) ∧
    (r.isOk = true → parse r.bodyText = some data →
      unwrapBody parse data = .ok payload →
      (getBookClient parse r = .ok none ↔ payload = .null)) := by
  have hne : r.isOk = true → r.status ≠ 404 := by
    intro h
    have := of_decide_eq_true h
    omega
  refine ⟨?_, ?_, ?_, ?_⟩
  · intro h404
    simp [getBookClient, h404]
  · intro h404 hok
    simp [getBookClient, h404, hok]
  · intro hok hdec hunwrap
    simp [getBookClient, hne hok, hok, responseJson, hdec, hunwrap]
  · intro hok hdec hunwrap
    have h3 : getBookClient parse r = .ok (jsNullable payload) := by
      simp [getBookClient, hne hok, hok, responseJson, hdec, hunwrap]
    rw [h3]
    cases payload <;> simp [jsNullable]

/-- The 2xx response fixture whose body decodes to JSON `null`. -/
def rNull : Response := { status := 200, statusText := "OK", bodyText := jsNullTxt }

/-- C10 counterexample: a 200 response whose payload is JSON `null` also
makes `getBook` resolve to `null`, so `null` is not returned exactly on
404. -/
theorem getBook_null_without_404 :
    getBookClient parse0 rNull = .ok none ∧ rNull.status ≠ 404 := by
  refine ⟨rfl, by decide⟩

/-- The 404 response fixture. -/
def r404 : Response := { status := 404, statusText := "Not Found", bodyText := "missing" }

theorem getBook_classification_witness :
    getBookClient parse0 r404 = .ok none ∧
    getBookClient parse0 r500 = .error "Failed to fetch book" ∧
    getBookClient parse0 rBareArr = .ok (jsNullable (.arr [ bookJson0 ])) ∧
    (getBookClient parse0 rNull = .ok none ↔ (Json.null = Json.null)) :=
  ⟨(getBook_classification parse0 r404 .null .null).1 rfl,
   (getBook_classification parse0 r500 .null .null).2.1 (by decide) rfl,
   (getBook_classification parse0 rBareArr (.arr [ bookJson0 ])
      (.arr [ bookJson0 ])).2.2.1 rfl rfl rfl,
   (getBook_classification parse0 rNull .null .null).2.2.2 rfl rfl rfl⟩

/-- The sync invariant assumed by the rollback theorem is itself preserved by
`toggleCompleted`, whichever way the network call turns out (and it is
established at load, where `completedIds` is built from
`list.completedBookIds`). -/
theorem toggleCompleted_preserves_sync (st : DetailState) (b : String)
    (ok : Bool) :
    detailSync (toggleCompleted st b ok) := by
  cases ok with
  | true =>
      simp [toggleCompleted, toggleOptimistic, detailSync, finsetToArray,
        Finset.sort_toFinset]
  | false =>
      simp [toggleCompleted, toggleRollback, detailSync]
